import Mathlib

/-!
Shallow embedding of the WebAssembly tiered-callee management core of
`Source/JavaScriptCore/wasm/WasmCallee.h` and
`Source/JavaScriptCore/wasm/js/JSWebAssemblyCalleeGroup.cpp`,
together with theorems settling the specification claims about it.

Pointers (`Ref<T>`, `RefPtr<T>`) are modelled by identities (`CalleeId`):
a `Ref<T>&&` argument is a plain `CalleeId` (a `Ref` is never null), a
`RefPtr<T>` field is an `Option CalleeId` (null = `none`).  Machine
addresses are `Nat`.  A `RELEASE_ASSERT` failure is modelled by `Option`
(`none` = the fatal assertion fires).
-/

namespace WasmModel

/-- Identity of a callee object (stands for a `Ref`/`RefPtr` target). -/
abbrev CalleeId := Nat

/-- `Wasm::MemoryMode`: the closed set of memory addressing disciplines
(`NumberOfMemoryModes = 2`). -/
inductive MemoryMode where
  | BoundsChecking : MemoryMode
  | Signaling : MemoryMode
deriving DecidableEq, Repr

/-- `Wasm::CompilationMode`: the tier tag fixed at construction. -/
inductive CompilationMode where
  | LLIntMode : CompilationMode
  | BBQMode : CompilationMode
  | OMGMode : CompilationMode
  | OMGForOSREntryMode : CompilationMode
  | EmbedderEntrypointMode : CompilationMode
deriving DecidableEq, Repr

/-- A fixed-size array indexed by memory mode, as in
`RefPtr<JITCallee> m_replacements[Wasm::NumberOfMemoryModes]`. -/
structure PerMode (α : Type) where
  boundsChecking : α
  signaling : α
deriving DecidableEq, Repr

/-- Read the slot for a memory mode (`arr[static_cast<uint8_t>(mode)]`). -/
def PerMode.get {α : Type} (p : PerMode α) : MemoryMode → α
  | MemoryMode.BoundsChecking => p.boundsChecking
  | MemoryMode.Signaling => p.signaling

/-- Write the slot for a memory mode (`arr[static_cast<uint8_t>(mode)] = v`). -/
def PerMode.set {α : Type} (p : PerMode α) : MemoryMode → α → PerMode α
  | MemoryMode.BoundsChecking, v => { p with boundsChecking := v }
  | MemoryMode.Signaling, v => { p with signaling := v }

/-- `IndexOrName`: function index within the module plus optional name. -/
structure IndexOrName where
  index : Nat
  name : Option String
deriving DecidableEq, Repr

/-- Modelled from the spec: one record of the Exception Handler Table
(`HandlerInfo`, whose definition lives in `WasmHandlerInfo.h`, outside the
sampled sources): a code-address range `[rangeStart, rangeEnd)`, a
landing-pad address, and an optional exception-tag filter (`none` =
catch-all). -/
structure HandlerInfo where
  rangeStart : Nat
  rangeEnd : Nat
  landingPad : Nat
  tagFilter : Option Nat
deriving DecidableEq, Repr

/-- Modelled from the spec: an unlinked exception-handler descriptor
(`UnlinkedHandlerInfo`, outside the sampled sources): the range-in-function
and the tag filter, with the landing-pad address still unknown. -/
structure UnlinkedHandlerInfo where
  rangeStart : Nat
  rangeEnd : Nat
  tagFilter : Option Nat
deriving DecidableEq, Repr

/-- An executable-memory allocation with its `[start, end)` address range
(`ExecutableMemory::start()` / `end()`). -/
structure ExecutableMemory where
  startAddress : Nat
  endAddress : Nat
deriving DecidableEq, Repr

/-- A finished compilation: its code pointer and the executable memory
holding it (`Compilation::code()` / `codeRef().executableMemory()`). -/
structure Compilation where
  codeAddress : Nat
  executableMemory : ExecutableMemory
deriving DecidableEq, Repr

/-- `Wasm::Entrypoint`: a compilation plus its callee-saved register list. -/
structure Entrypoint where
  compilation : Compilation
  calleeSaveRegisters : List Nat
deriving DecidableEq, Repr

/-- Modelled from the spec: well-formedness of an Entrypoint and Range
descriptor produced by a code-generation backend — the descriptor holds
"an executable-code entry address ... and a contiguous `[start,end)`
address range" for the code, so the range is non-empty and the entry
address lies in it.  (The allocator establishing this is outside the
sampled sources.) -/
def Entrypoint.wellFormed (e : Entrypoint) : Prop :=
  e.compilation.executableMemory.startAddress ≤ e.compilation.codeAddress ∧
  e.compilation.codeAddress < e.compilation.executableMemory.endAddress

instance (e : Entrypoint) : Decidable e.wellFormed := by
  unfold Entrypoint.wellFormed; infer_instance

end WasmModel

namespace WasmModel

/-! ## JITCallee entrypoint and range (`WasmCallee.h` lines 95-108) -/

/-- `JITCallee::entrypoint()`: the compilation's code pointer (retagging
does not change the address). -/
def JITCallee.entrypointAddress (e : Entrypoint) : Nat :=
  e.compilation.codeAddress

/-- `JITCallee::range()`: `{ start, end }` of the executable memory. -/
def JITCallee.range (e : Entrypoint) : Nat × Nat :=
  (e.compilation.executableMemory.startAddress,
   e.compilation.executableMemory.endAddress)

/-! ## The concrete callee classes.

Each structure carries the `Callee` base fields (`m_compilationMode`,
`m_indexOrName`, `m_exceptionHandlers`) plus the derived class's own
fields, exactly as laid out in `WasmCallee.h`. -/

/-- `FunctionCodeBlock` as owned by `LLIntCallee` (its definition is in
`WasmFunctionCodeBlock.h`, outside the sampled sources); modelled from the
spec as the exclusively owned bytecode for the function, carrying the code
range used for attribution. -/
structure FunctionCodeBlock where
  instructionsStart : Nat
  instructionsEnd : Nat
deriving DecidableEq, Repr

/-- `LLIntCallee` (`WasmCallee.h` lines 224-266): base fields plus
per-memory-mode replacement and OSR-entry slots, the owned code block and
the installable entrypoint. -/
structure LLIntCallee where
  compilationMode : CompilationMode
  indexOrName : IndexOrName
  exceptionHandlers : List HandlerInfo
  codeBlock : FunctionCodeBlock
  replacements : PerMode (Option CalleeId)
  osrEntryCallees : PerMode (Option CalleeId)
  entrypointSlot : Option Nat
deriving DecidableEq, Repr

/-- `LLIntCallee::create` / the `LLIntCallee` constructor: tier is
`LLIntMode`; the `RefPtr` arrays `m_replacements` / `m_osrEntryCallees`
default-construct to null and `m_entrypoint` is not yet installed. -/
def LLIntCallee.create (codeBlock : FunctionCodeBlock) (index : Nat)
    (name : Option String) (handlers : List HandlerInfo) : LLIntCallee :=
  { compilationMode := CompilationMode.LLIntMode
    indexOrName := { index := index, name := name }
    exceptionHandlers := handlers
    codeBlock := codeBlock
    replacements := { boundsChecking := none, signaling := none }
    osrEntryCallees := { boundsChecking := none, signaling := none }
    entrypointSlot := none }

/-- `LLIntCallee::replacement(MemoryMode)`. -/
def LLIntCallee.replacement (c : LLIntCallee) (mode : MemoryMode) : Option CalleeId :=
  c.replacements.get mode

/-- `LLIntCallee::setReplacement(Ref<JITCallee>&&, MemoryMode)`:
`m_replacements[mode] = WTFMove(replacement)` — the argument is a `Ref`,
hence non-null. -/
def LLIntCallee.setReplacement (c : LLIntCallee) (repl : CalleeId)
    (mode : MemoryMode) : LLIntCallee :=
  { c with replacements := c.replacements.set mode (some repl) }

/-- `LLIntCallee::osrEntryCallee(MemoryMode)`. -/
def LLIntCallee.osrEntryCallee (c : LLIntCallee) (mode : MemoryMode) : Option CalleeId :=
  c.osrEntryCallees.get mode

/-- `LLIntCallee::setOSREntryCallee(Ref<OMGForOSREntryCallee>&&, MemoryMode)`:
`m_osrEntryCallees[mode] = WTFMove(osrEntryCallee)`. -/
def LLIntCallee.setOSREntryCallee (c : LLIntCallee) (osr : CalleeId)
    (mode : MemoryMode) : LLIntCallee :=
  { c with osrEntryCallees := c.osrEntryCallees.set mode (some osr) }

/-- `LLIntCallee::setEntrypoint(MacroAssemblerCodePtr)`: installs
`m_entrypoint` (its body is in `WasmCallee.cpp`, outside the sampled
sources; modelled from the spec — the entrypoint "is mutable exactly once
per install" and the write touches nothing else). -/
def LLIntCallee.setEntrypoint (c : LLIntCallee) (e : Nat) : LLIntCallee :=
  { c with entrypointSlot := some e }

/-- Modelled from the spec: `LLIntCallee::range()` (its body is in
`WasmCallee.cpp`, outside the sampled sources) — the code range attributed
to an interpreter-tier callee is that of its owned bytecode block. -/
def LLIntCallee.range (c : LLIntCallee) : Nat × Nat :=
  (c.codeBlock.instructionsStart, c.codeBlock.instructionsEnd)

/-- `BBQCallee` (`WasmCallee.h` lines 186-221): base fields, the JIT
entrypoint, plus the single OSR-entry slot, the replacement slot, the
tier-up count and the `m_didStartCompilingOSREntryCallee { false }` flag. -/
structure BBQCallee where
  compilationMode : CompilationMode
  indexOrName : IndexOrName
  exceptionHandlers : List HandlerInfo
  entrypointDescriptor : Entrypoint
  osrEntryCalleeSlot : Option CalleeId
  replacementSlot : Option CalleeId
  tierUpCount : Nat
  didStartCompilingOSREntryCallee : Bool
deriving DecidableEq, Repr

/-- `BBQCallee::osrEntryCallee()`. -/
def BBQCallee.osrEntryCallee (c : BBQCallee) : Option CalleeId :=
  c.osrEntryCalleeSlot

/-- `BBQCallee::setOSREntryCallee(Ref<OMGForOSREntryCallee>&&, MemoryMode)`:
`m_osrEntryCallee = WTFMove(osrEntryCallee)` — the `MemoryMode` parameter
is unused. -/
def BBQCallee.setOSREntryCallee (c : BBQCallee) (osr : CalleeId)
    (_mode : MemoryMode) : BBQCallee :=
  { c with osrEntryCalleeSlot := some osr }

/-- `BBQCallee::replacement()`. -/
def BBQCallee.replacement (c : BBQCallee) : Option CalleeId :=
  c.replacementSlot

/-- `BBQCallee::setReplacement(Ref<OMGCallee>&&)`:
`m_replacement = WTFMove(replacement)`. -/
def BBQCallee.setReplacement (c : BBQCallee) (repl : CalleeId) : BBQCallee :=
  { c with replacementSlot := some repl }

/-- `BBQCallee::setDidStartCompilingOSREntryCallee(bool)`. -/
def BBQCallee.setDidStartCompilingOSREntryCallee (c : BBQCallee) (value : Bool) :
    BBQCallee :=
  { c with didStartCompilingOSREntryCallee := value }

/-- `OMGCallee` (`WasmCallee.h` lines 150-162): an optimizing JIT callee
with no mutable tier slots of its own. -/
structure OMGCallee where
  compilationMode : CompilationMode
  indexOrName : IndexOrName
  exceptionHandlers : List HandlerInfo
  entrypointDescriptor : Entrypoint
deriving DecidableEq, Repr

/-- `OMGForOSREntryCallee` (`WasmCallee.h` lines 164-184): adds the OSR
scratch-buffer size and the loop index. -/
structure OMGForOSREntryCallee where
  compilationMode : CompilationMode
  indexOrName : IndexOrName
  exceptionHandlers : List HandlerInfo
  entrypointDescriptor : Entrypoint
  osrEntryScratchBufferSize : Nat
  loopIndex : Nat
deriving DecidableEq, Repr

/-- `EmbedderEntrypointCallee` (`WasmCallee.h` lines 115-127). -/
structure EmbedderEntrypointCallee where
  compilationMode : CompilationMode
  indexOrName : IndexOrName
  exceptionHandlers : List HandlerInfo
  entrypointDescriptor : Entrypoint
deriving DecidableEq, Repr

/-- The closed variant of concrete callee classes (the `Callee` hierarchy
is a closed set of final classes). -/
inductive AnyCallee where
  | llint : LLIntCallee → AnyCallee
  | bbq : BBQCallee → AnyCallee
  | omg : OMGCallee → AnyCallee
  | omgForOSREntry : OMGForOSREntryCallee → AnyCallee
  | embedderEntrypoint : EmbedderEntrypointCallee → AnyCallee
deriving DecidableEq, Repr

/-- Virtual dispatch of `Callee::setOSREntryCallee` (`WasmCallee.h` lines
70-75, 194-197, 246-249): `BBQCallee` and `LLIntCallee` override it; every
other class reaches the base implementation, which is
`RELEASE_ASSERT_NOT_REACHED()` — modelled as `none`. -/
def Callee.setOSREntryCallee (c : AnyCallee) (osr : CalleeId)
    (mode : MemoryMode) : Option AnyCallee :=
  match c with
  | AnyCallee.llint cl => some (AnyCallee.llint (cl.setOSREntryCallee osr mode))
  | AnyCallee.bbq cb => some (AnyCallee.bbq (cb.setOSREntryCallee osr mode))
  | AnyCallee.omg _ => none
  | AnyCallee.omgForOSREntry _ => none
  | AnyCallee.embedderEntrypoint _ => none

end WasmModel

namespace WasmModel

/-! ## Mutating operations as a step relation over op sequences -/

/-- The mutating operations available on an `LLIntCallee`. -/
inductive LLIntOp where
  | doSetReplacement : CalleeId → MemoryMode → LLIntOp
  | doSetOSREntryCallee : CalleeId → MemoryMode → LLIntOp
  | doSetEntrypoint : Nat → LLIntOp
deriving DecidableEq, Repr

/-- Apply one `LLIntCallee` operation. -/
def LLIntCallee.applyOp (c : LLIntCallee) : LLIntOp → LLIntCallee
  | LLIntOp.doSetReplacement r mode => c.setReplacement r mode
  | LLIntOp.doSetOSREntryCallee o mode => c.setOSREntryCallee o mode
  | LLIntOp.doSetEntrypoint e => c.setEntrypoint e

/-- Apply a sequence of `LLIntCallee` operations, oldest first. -/
def LLIntCallee.applyOps (c : LLIntCallee) (ops : List LLIntOp) : LLIntCallee :=
  ops.foldl LLIntCallee.applyOp c

/-- The mutating operations available on a `BBQCallee`. -/
inductive BBQOp where
  | doSetReplacement : CalleeId → BBQOp
  | doSetOSREntryCallee : CalleeId → MemoryMode → BBQOp
  | doSetDidStartCompilingOSREntryCallee : Bool → BBQOp
deriving DecidableEq, Repr

/-- Apply one `BBQCallee` operation. -/
def BBQCallee.applyOp (c : BBQCallee) : BBQOp → BBQCallee
  | BBQOp.doSetReplacement r => c.setReplacement r
  | BBQOp.doSetOSREntryCallee o mode => c.setOSREntryCallee o mode
  | BBQOp.doSetDidStartCompilingOSREntryCallee b =>
      c.setDidStartCompilingOSREntryCallee b

/-- Apply a sequence of `BBQCallee` operations, oldest first. -/
def BBQCallee.applyOps (c : BBQCallee) (ops : List BBQOp) : BBQCallee :=
  ops.foldl BBQCallee.applyOp c

/-! ## Exception-handler linking (`OptimizingJITCallee`) -/

/-- Modelled from the spec: the body of
`OptimizingJITCallee::linkExceptionHandlers` (defined in `WasmCallee.cpp`,
outside the sampled sources) — the final table pairs each unlinked
descriptor's range-in-function and tag filter with its now-known
landing-pad address. -/
def linkHandler (u : UnlinkedHandlerInfo) (location : Nat) : HandlerInfo :=
  { rangeStart := u.rangeStart
    rangeEnd := u.rangeEnd
    landingPad := location
    tagFilter := u.tagFilter }

/-- The `OptimizingJITCallee` constructor's handler-linking step
(`WasmCallee.h` lines 136-142):
`RELEASE_ASSERT(unlinkedExceptionHandlers.size() == exceptionHandlerLocations.size())`
followed by `linkExceptionHandlers`.  `none` models the fatal assertion. -/
def linkExceptionHandlers (unlinkedHandlers : List UnlinkedHandlerInfo)
    (resolvedLocations : List Nat) : Option (List HandlerInfo) :=
  if unlinkedHandlers.length = resolvedLocations.length then
    some (List.zipWith linkHandler unlinkedHandlers resolvedLocations)
  else
    none

/-! ## Exception-handler lookup -/

/-- Whether a handler record applies to a fault address and thrown tag:
its range contains the address and its tag filter is catch-all or equals
the thrown tag. -/
def HandlerInfo.handlerMatches (h : HandlerInfo) (address : Nat)
    (thrownTag : Option Nat) : Bool :=
  decide (h.rangeStart ≤ address) && decide (address < h.rangeEnd) &&
    (h.tagFilter == none || h.tagFilter == thrownTag)

/-- Width of a handler's protected range. -/
def HandlerInfo.rangeWidth (h : HandlerInfo) : Nat :=
  h.rangeEnd - h.rangeStart

/-- One scan step of `handlerForRange`: keep the innermost (smallest-width)
matching record seen so far; on a width tie the earlier record is kept. -/
def handlerScanStep (address : Nat) (thrownTag : Option Nat)
    (best : Option HandlerInfo) (h : HandlerInfo) : Option HandlerInfo :=
  if h.handlerMatches address thrownTag then
    match best with
    | none => some h
    | some b => if h.rangeWidth < b.rangeWidth then some h else some b
  else best

/-- Modelled from the spec: `handlerForRange(address, thrownTagOrNone)`
(the lookup behind `Callee::handlerForIndex`, whose body is in
`WasmCallee.cpp` / `WasmHandlerInfo.h`, outside the sampled sources) — a
linear scan of the Exception Handler Table for the smallest range
containing `address` whose tag filter matches the thrown tag or is
catch-all; ties broken innermost-range-first; `none` when no record
matches, signaling propagation to the caller's frame. -/
def handlerForRange (handlers : List HandlerInfo) (address : Nat)
    (thrownTag : Option Nat) : Option HandlerInfo :=
  handlers.foldl (handlerScanStep address thrownTag) none

/-! ## `JSWebAssemblyCalleeGroup` construction
(`JSWebAssemblyCalleeGroup.cpp` lines 47-67) -/

/-- `Wasm::BindingFailure` — the only member is `OutOfMemory`. -/
inductive BindingFailure where
  | OutOfMemory : BindingFailure
deriving DecidableEq, Repr

/-- A wasm-to-JS exit stub produced by `Wasm::wasmToJS` (opaque here). -/
abbrev ExitStub := Nat

/-- The observable state of a `JSWebAssemblyCalleeGroup` after
construction: the `m_wasmToJSExitStubs` fixed vector (slot `none` =
still default-constructed / unpopulated), the `m_errorMessage`, and the
log of import indices for which `Wasm::wasmToJS` was invoked, in call
order. -/
structure CalleeGroupConstructionResult where
  wasmToJSExitStubs : List (Option ExitStub)
  errorMessage : Option String
  bindingCalls : List Nat
deriving DecidableEq, Repr

/-- The constructor's import-binding loop, from `importIndex` up to
`functionImportCount`: each iteration calls `Wasm::wasmToJS` once for the
current index; on `OutOfMemory` it sets
`m_errorMessage = "Out of executable memory"` and returns at once, leaving
the remaining stub slots unpopulated; on success it stores the stub and
advances. -/
def constructorLoop (wasmToJS : Nat → Except BindingFailure ExitStub)
    (functionImportCount importIndex : Nat)
    (stubs : List (Option ExitStub)) (calls : List Nat) :
    CalleeGroupConstructionResult :=
  if _h : importIndex < functionImportCount then
    match wasmToJS importIndex with
    | Except.error BindingFailure.OutOfMemory =>
        { wasmToJSExitStubs := stubs
          errorMessage := some "Out of executable memory"
          bindingCalls := calls ++ [importIndex] }
    | Except.ok binding =>
        constructorLoop wasmToJS functionImportCount (importIndex + 1)
          (stubs.set importIndex (some binding)) (calls ++ [importIndex])
  else
    { wasmToJSExitStubs := stubs
      errorMessage := none
      bindingCalls := calls }
termination_by functionImportCount - importIndex

/-- `JSWebAssemblyCalleeGroup::JSWebAssemblyCalleeGroup`:
`m_wasmToJSExitStubs` is sized to `functionImportCount()` (all slots
default-constructed), then the import-binding loop runs from index 0. -/
def constructJSWebAssemblyCalleeGroup
    (wasmToJS : Nat → Except BindingFailure ExitStub)
    (functionImportCount : Nat) : CalleeGroupConstructionResult :=
  constructorLoop wasmToJS functionImportCount 0
    (List.replicate functionImportCount none) []

end WasmModel

namespace WasmModel

/-! ## Constructors going through the `OptimizingJITCallee` base -/

/-- `BBQCallee::create` / the `BBQCallee` constructor chain: the
`OptimizingJITCallee` base constructor (`WasmCallee.h` lines 136-142)
`RELEASE_ASSERT`s that the unlinked-handler and resolved-location counts
agree (`none` models the fatal assertion) and links the exception-handler
table; the `BBQCallee` fields `m_osrEntryCallee` / `m_replacement`
default-construct to null and `m_didStartCompilingOSREntryCallee` is
initialized to `false`. -/
def BBQCallee.create (entrypoint : Entrypoint) (index : Nat)
    (name : Option String) (tierUpCount : Nat)
    (unlinkedExceptionHandlers : List UnlinkedHandlerInfo)
    (exceptionHandlerLocations : List Nat) : Option BBQCallee :=
  match linkExceptionHandlers unlinkedExceptionHandlers exceptionHandlerLocations with
  | none => none
  | some handlers =>
      some
        { compilationMode := CompilationMode.BBQMode
          indexOrName := { index := index, name := name }
          exceptionHandlers := handlers
          entrypointDescriptor := entrypoint
          osrEntryCalleeSlot := none
          replacementSlot := none
          tierUpCount := tierUpCount
          didStartCompilingOSREntryCallee := false }

/-- Modelled from the spec: well-formedness of an interpreter-tier
callee's attribution data (`LLIntCallee::entrypoint` / `range` are defined
in `WasmCallee.cpp`, outside the sampled sources) — the owned bytecode
block's attributed range is non-empty, and an installed dispatch
entrypoint lies within that range. -/
def LLIntCallee.attributionWellFormed (c : LLIntCallee) : Prop :=
  c.codeBlock.instructionsStart < c.codeBlock.instructionsEnd ∧
  ∀ e ∈ c.entrypointSlot,
    c.codeBlock.instructionsStart ≤ e ∧ e < c.codeBlock.instructionsEnd

instance (c : LLIntCallee) : Decidable c.attributionWellFormed := by
  unfold LLIntCallee.attributionWellFormed
  cases c.entrypointSlot <;> simp <;> infer_instance

/-! ## Sample values used by closed witness/counterexample statements -/

/-- A concrete `Entrypoint` descriptor for closed statements. -/
def sampleEntrypoint : Entrypoint :=
  { compilation :=
      { codeAddress := 100
        executableMemory := { startAddress := 96, endAddress := 160 } }
    calleeSaveRegisters := [0, 1] }

/-- A concrete `BBQCallee` for closed statements. -/
def sampleBBQCallee : BBQCallee :=
  { compilationMode := CompilationMode.BBQMode
    indexOrName := { index := 0, name := none }
    exceptionHandlers := []
    entrypointDescriptor := sampleEntrypoint
    osrEntryCalleeSlot := none
    replacementSlot := none
    tierUpCount := 0
    didStartCompilingOSREntryCallee := false }

/-- A concrete `LLIntCallee` for closed statements. -/
def sampleLLIntCallee : LLIntCallee :=
  LLIntCallee.create { instructionsStart := 0, instructionsEnd := 8 } 0 none []

/-- A concrete import-binding oracle for closed statements: import 0 binds
successfully, import 1 fails with `OutOfMemory`. -/
def sampleWasmToJS : Nat → Except BindingFailure ExitStub :=
  fun importIndex =>
    if importIndex = 0 then Except.ok 42
    else Except.error BindingFailure.OutOfMemory

end WasmModel

namespace WasmModel

/-! ## Helper lemmas -/

theorem PerMode.get_set {α : Type} (p : PerMode α) (m m' : MemoryMode) (v : α) :
    (p.set m v).get m' = if m = m' then v else p.get m' := by
  cases m <;> cases m' <;> simp [PerMode.get, PerMode.set]

theorem PerMode.isSome_get_set_some {p : PerMode (Option CalleeId)}
    {m m' : MemoryMode} {v : CalleeId} (h : ((p.get m').isSome : Prop)) :
    (((p.set m (some v)).get m').isSome : Prop) := by
  rw [PerMode.get_set]
  split
  · rfl
  · exact h

theorem LLIntCallee.applyOp_replacement_isSome (c : LLIntCallee) (op : LLIntOp)
    (mode : MemoryMode) (h : ((c.replacement mode).isSome : Prop)) :
    (((c.applyOp op).replacement mode).isSome : Prop) := by
  cases op with
  | doSetReplacement r m =>
      exact PerMode.isSome_get_set_some h
  | doSetOSREntryCallee o m => exact h
  | doSetEntrypoint e => exact h

theorem LLIntCallee.applyOp_osrEntryCallee_isSome (c : LLIntCallee) (op : LLIntOp)
    (mode : MemoryMode) (h : ((c.osrEntryCallee mode).isSome : Prop)) :
    (((c.applyOp op).osrEntryCallee mode).isSome : Prop) := by
  cases op with
  | doSetReplacement r m => exact h
  | doSetOSREntryCallee o m =>
      exact PerMode.isSome_get_set_some h
  | doSetEntrypoint e => exact h

theorem LLIntCallee.applyOps_cons (c : LLIntCallee) (op : LLIntOp) (ops : List LLIntOp) :
    c.applyOps (op :: ops) = (c.applyOp op).applyOps ops := rfl

theorem BBQCallee.applyOps_cons_eq (c : BBQCallee) (op : BBQOp) (ops : List BBQOp) :
    c.applyOps (op :: ops) = (c.applyOp op).applyOps ops := rfl

theorem LLIntCallee.applyOps_replacement_isSome :
    ∀ (ops : List LLIntOp) (c : LLIntCallee) (mode : MemoryMode),
    ((c.replacement mode).isSome : Prop) →
    (((c.applyOps ops).replacement mode).isSome : Prop)
  | [], _, _, h => h
  | op :: ops, c, mode, h =>
      applyOps_replacement_isSome ops (c.applyOp op) mode
        (c.applyOp_replacement_isSome op mode h)

theorem LLIntCallee.applyOps_osrEntryCallee_isSome :
    ∀ (ops : List LLIntOp) (c : LLIntCallee) (mode : MemoryMode),
    ((c.osrEntryCallee mode).isSome : Prop) →
    (((c.applyOps ops).osrEntryCallee mode).isSome : Prop)
  | [], _, _, h => h
  | op :: ops, c, mode, h =>
      applyOps_osrEntryCallee_isSome ops (c.applyOp op) mode
        (c.applyOp_osrEntryCallee_isSome op mode h)

theorem BBQCallee.applyOp_replacementSlot_isSome (c : BBQCallee) (op : BBQOp)
    (h : ((c.replacement).isSome : Prop)) :
    (((c.applyOp op).replacement).isSome : Prop) := by
  cases op <;> first
    | exact h
    | rfl

theorem BBQCallee.applyOp_osrSlot_isSome (c : BBQCallee) (op : BBQOp)
    (h : ((c.osrEntryCallee).isSome : Prop)) :
    (((c.applyOp op).osrEntryCallee).isSome : Prop) := by
  cases op <;> first
    | exact h
    | rfl

theorem BBQCallee.applyOps_replacementSlot_isSome :
    ∀ (ops : List BBQOp) (c : BBQCallee),
    ((c.replacement).isSome : Prop) → (((c.applyOps ops).replacement).isSome : Prop)
  | [], _, h => h
  | op :: ops, c, h =>
      applyOps_replacementSlot_isSome ops (c.applyOp op)
        (c.applyOp_replacementSlot_isSome op h)

theorem BBQCallee.applyOps_osrSlot_isSome :
    ∀ (ops : List BBQOp) (c : BBQCallee),
    ((c.osrEntryCallee).isSome : Prop) → (((c.applyOps ops).osrEntryCallee).isSome : Prop)
  | [], _, h => h
  | op :: ops, c, h =>
      applyOps_osrSlot_isSome ops (c.applyOp op)
        (c.applyOp_osrSlot_isSome op h)

end WasmModel

namespace WasmModel

/-! ## Claim theorems -/

/-- C1: Replacement and OSR-entry slots are monotonic (never cleared): for
every `LLIntCallee` and memory mode, and for every `BBQCallee`, once a
replacement or OSR-entry slot holds a callee it holds a non-null callee
after every subsequent sequence of `setReplacement` / `setOSREntryCallee`
(and other mutating) operations; no operation transitions a slot from
non-empty back to empty. -/
theorem replacement_slots_monotonic :
    (∀ (c : LLIntCallee) (ops : List LLIntOp) (mode : MemoryMode),
      (((c.replacement mode).isSome : Prop) →
        (((c.applyOps ops).replacement mode).isSome : Prop)) ∧
      (((c.osrEntryCallee mode).isSome : Prop) →
        (((c.applyOps ops).osrEntryCallee mode).isSome : Prop))) ∧
    (∀ (c : BBQCallee) (ops : List BBQOp),
      (((c.replacement).isSome : Prop) →
        (((c.applyOps ops).replacement).isSome : Prop)) ∧
      (((c.osrEntryCallee).isSome : Prop) →
        (((c.applyOps ops).osrEntryCallee).isSome : Prop))) :=
  ⟨fun c ops mode =>
    ⟨LLIntCallee.applyOps_replacement_isSome ops c mode,
     LLIntCallee.applyOps_osrEntryCallee_isSome ops c mode⟩,
   fun c ops =>
    ⟨BBQCallee.applyOps_replacementSlot_isSome ops c,
     BBQCallee.applyOps_osrSlot_isSome ops c⟩⟩

/-- Witness for C1 at a concrete input: install a replacement on the
sample interpreter callee, run further operations, and the slot is still
populated. -/
theorem replacement_slots_monotonic_witness :
    ((((sampleLLIntCallee.setReplacement 7 MemoryMode.BoundsChecking).applyOps
        [LLIntOp.doSetOSREntryCallee 9 MemoryMode.Signaling,
         LLIntOp.doSetReplacement 8 MemoryMode.Signaling,
         LLIntOp.doSetEntrypoint 3]).replacement
        MemoryMode.BoundsChecking).isSome : Prop) :=
  ((replacement_slots_monotonic.1
      (sampleLLIntCallee.setReplacement 7 MemoryMode.BoundsChecking)
      [LLIntOp.doSetOSREntryCallee 9 MemoryMode.Signaling,
       LLIntOp.doSetReplacement 8 MemoryMode.Signaling,
       LLIntOp.doSetEntrypoint 3]
      MemoryMode.BoundsChecking).1) (by decide)

end WasmModel

namespace WasmModel

/-- C6: Tier, identity, exception-handler table, and code range are
frame-preserved: every mutating operation (`setReplacement`,
`setOSREntryCallee`, `setDidStartCompilingOSREntryCallee`,
`LLIntCallee::setEntrypoint`) leaves the callee's `compilationMode`,
`indexOrName`, `exceptionHandlers` and code range unchanged. -/
theorem mutating_ops_preserve_frame :
    (∀ (c : LLIntCallee) (op : LLIntOp),
      (c.applyOp op).compilationMode = c.compilationMode ∧
      (c.applyOp op).indexOrName = c.indexOrName ∧
      (c.applyOp op).exceptionHandlers = c.exceptionHandlers ∧
      (c.applyOp op).range = c.range) ∧
    (∀ (c : BBQCallee) (op : BBQOp),
      (c.applyOp op).compilationMode = c.compilationMode ∧
      (c.applyOp op).indexOrName = c.indexOrName ∧
      (c.applyOp op).exceptionHandlers = c.exceptionHandlers ∧
      JITCallee.range (c.applyOp op).entrypointDescriptor =
        JITCallee.range c.entrypointDescriptor ∧
      JITCallee.entrypointAddress (c.applyOp op).entrypointDescriptor =
        JITCallee.entrypointAddress c.entrypointDescriptor) := by
  constructor
  · intro c op
    cases op <;>
      simp [LLIntCallee.applyOp, LLIntCallee.setReplacement,
        LLIntCallee.setOSREntryCallee, LLIntCallee.setEntrypoint,
        LLIntCallee.range]
  · intro c op
    cases op <;>
      simp [BBQCallee.applyOp, BBQCallee.setReplacement,
        BBQCallee.setOSREntryCallee,
        BBQCallee.setDidStartCompilingOSREntryCallee]

/-- C8: Initial state has all slots uninstalled: a newly constructed
`LLIntCallee` has empty replacement and OSR-entry slots for every memory
mode; a newly constructed `BBQCallee` has empty OSR-entry and replacement
slots and `didStartCompilingOSREntryCallee() = false`. -/
theorem initial_state_slots_uninstalled :
    (∀ (cb : FunctionCodeBlock) (index : Nat) (name : Option String)
        (handlers : List HandlerInfo) (mode : MemoryMode),
      (LLIntCallee.create cb index name handlers).replacement mode = none ∧
      (LLIntCallee.create cb index name handlers).osrEntryCallee mode = none) ∧
    (∀ (ep : Entrypoint) (index : Nat) (name : Option String) (tuc : Nat)
        (us : List UnlinkedHandlerInfo) (ls : List Nat) (b : BBQCallee),
      BBQCallee.create ep index name tuc us ls = some b →
      b.osrEntryCallee = none ∧ b.replacement = none ∧
      b.didStartCompilingOSREntryCallee = false) := by
  constructor
  · intro cb index name handlers mode
    cases mode <;>
      simp [LLIntCallee.create, LLIntCallee.replacement,
        LLIntCallee.osrEntryCallee, PerMode.get]
  · intro ep index name tuc us ls b hb
    unfold BBQCallee.create at hb
    cases hlink : linkExceptionHandlers us ls with
    | none => rw [hlink] at hb; exact absurd hb (by simp)
    | some handlers =>
        rw [hlink] at hb
        cases hb
        simp [BBQCallee.osrEntryCallee, BBQCallee.replacement]

/-- Witness for C8 at a concrete input: a `BBQCallee` constructed with
matching handler inputs has all slots empty and the flag cleared. -/
theorem initial_state_slots_uninstalled_witness :
    (BBQCallee.create sampleEntrypoint 0 none 0 [] []).isSome = true ∧
    (∀ b, BBQCallee.create sampleEntrypoint 0 none 0 [] [] = some b →
      b.osrEntryCallee = none ∧ b.replacement = none ∧
      b.didStartCompilingOSREntryCallee = false) :=
  ⟨by decide,
   fun b hb =>
    initial_state_slots_uninstalled.2 sampleEntrypoint 0 none 0 [] [] b hb⟩

/-- C9: Only interpreter- and baseline-tier callees accept OSR-entry
installation: virtual `Callee::setOSREntryCallee` reaches the fatal
assertion (modelled as `none`) on `OMGCallee`, `OMGForOSREntryCallee` and
`EmbedderEntrypointCallee`; restricted to `LLIntCallee` or `BBQCallee`
the operation always succeeds (the assertion branch is unreachable). -/
theorem setOSREntryCallee_tier_gating :
    (∀ (c : OMGCallee) (osr : CalleeId) (mode : MemoryMode),
      Callee.setOSREntryCallee (AnyCallee.omg c) osr mode = none) ∧
    (∀ (c : OMGForOSREntryCallee) (osr : CalleeId) (mode : MemoryMode),
      Callee.setOSREntryCallee (AnyCallee.omgForOSREntry c) osr mode = none) ∧
    (∀ (c : EmbedderEntrypointCallee) (osr : CalleeId) (mode : MemoryMode),
      Callee.setOSREntryCallee (AnyCallee.embedderEntrypoint c) osr mode = none) ∧
    (∀ (c : AnyCallee) (osr : CalleeId) (mode : MemoryMode),
      ((∃ cl, c = AnyCallee.llint cl) ∨ (∃ cb, c = AnyCallee.bbq cb)) →
      ((Callee.setOSREntryCallee c osr mode).isSome : Prop)) := by
  refine ⟨fun c osr mode => rfl, fun c osr mode => rfl, fun c osr mode => rfl,
    fun c osr mode hc => ?_⟩
  rcases hc with ⟨cl, rfl⟩ | ⟨cb, rfl⟩ <;> rfl

/-- Witness for C9 at a concrete input: installing an OSR-entry callee on
the sample baseline callee succeeds. -/
theorem setOSREntryCallee_tier_gating_witness :
    ((Callee.setOSREntryCallee (AnyCallee.bbq sampleBBQCallee) 5
        MemoryMode.BoundsChecking).isSome : Prop) :=
  setOSREntryCallee_tier_gating.2.2.2 (AnyCallee.bbq sampleBBQCallee) 5
    MemoryMode.BoundsChecking (Or.inr ⟨sampleBBQCallee, rfl⟩)

/-- C10: The baseline callee's OSR-entry slot is shared across memory
modes: `BBQCallee::setOSREntryCallee` ignores its `MemoryMode` argument,
installing under one mode and then another leaves only the second callee
reachable, while `LLIntCallee`'s OSR-entry slots are indexed per memory
mode, so installing under one mode leaves the other mode's slot
untouched. -/
theorem bbq_osr_slot_mode_independent :
    (∀ (c : BBQCallee) (osr : CalleeId) (m1 m2 : MemoryMode),
      c.setOSREntryCallee osr m1 = c.setOSREntryCallee osr m2) ∧
    (∀ (c : BBQCallee) (a b : CalleeId) (m1 m2 : MemoryMode),
      ((c.setOSREntryCallee a m1).setOSREntryCallee b m2).osrEntryCallee =
        some b ∧
      (a ≠ b →
        ((c.setOSREntryCallee a m1).setOSREntryCallee b m2).osrEntryCallee ≠
          some a)) ∧
    (∀ (c : LLIntCallee) (a : CalleeId) (m1 m2 : MemoryMode), m1 ≠ m2 →
      (c.setOSREntryCallee a m1).osrEntryCallee m2 = c.osrEntryCallee m2) := by
  refine ⟨fun c osr m1 m2 => rfl, fun c a b m1 m2 => ⟨rfl, fun hab => ?_⟩,
    fun c a m1 m2 hm => ?_⟩
  · simp [BBQCallee.setOSREntryCallee, BBQCallee.osrEntryCallee]
    exact fun h => hab h.symm
  · cases m1 <;> cases m2 <;>
      simp_all [LLIntCallee.setOSREntryCallee, LLIntCallee.osrEntryCallee,
        PerMode.get, PerMode.set]

/-- Witness for C10 at a concrete input: installing OSR-entry callee 3
under one mode and 4 under the other leaves only 4 reachable on the
baseline callee, and the interpreter callee's other-mode slot is
untouched. -/
theorem bbq_osr_slot_mode_independent_witness :
    ((sampleBBQCallee.setOSREntryCallee 3 MemoryMode.BoundsChecking).setOSREntryCallee
        4 MemoryMode.Signaling).osrEntryCallee ≠ some 3 ∧
    (sampleLLIntCallee.setOSREntryCallee 3 MemoryMode.BoundsChecking).osrEntryCallee
        MemoryMode.Signaling = none :=
  ⟨(bbq_osr_slot_mode_independent.2.1 sampleBBQCallee 3 4
      MemoryMode.BoundsChecking MemoryMode.Signaling).2 (by decide),
   (bbq_osr_slot_mode_independent.2.2 sampleLLIntCallee 3
      MemoryMode.BoundsChecking MemoryMode.Signaling (by decide)).trans
     (by decide)⟩

/-- Counterexample for C2: publication is not
first-successful-publish-wins.  Publishing callee 1 and then callee 2 via
`BBQCallee::setReplacement` leaves callee 2 — not the first published
callee 1 — in the slot. -/
theorem setReplacement_not_first_publish_wins :
    ((sampleBBQCallee.setReplacement 1).setReplacement 2).replacement = some 2 ∧
    ((sampleBBQCallee.setReplacement 1).setReplacement 2).replacement ≠ some 1 := by
  constructor
  · rfl
  · decide

/-- C2 (amended): publication into a replacement slot is
last-writer-wins: after two successful publishes via `setReplacement` for
the same slot the slot holds exactly the second-published callee; the
first-published callee is no longer reachable from the slot, so exactly
one of the two is reachable and the other is discarded. -/
theorem setReplacement_last_publish_wins :
    (∀ (c : BBQCallee) (c1 c2 : CalleeId),
      ((c.setReplacement c1).setReplacement c2).replacement = some c2 ∧
      (c1 ≠ c2 →
        ((c.setReplacement c1).setReplacement c2).replacement ≠ some c1)) ∧
    (∀ (c : LLIntCallee) (c1 c2 : CalleeId) (mode : MemoryMode),
      ((c.setReplacement c1 mode).setReplacement c2 mode).replacement mode =
        some c2 ∧
      (c1 ≠ c2 →
        ((c.setReplacement c1 mode).setReplacement c2 mode).replacement mode ≠
          some c1)) := by
  constructor
  · intro c c1 c2
    refine ⟨rfl, fun h12 => ?_⟩
    simp [BBQCallee.setReplacement, BBQCallee.replacement]
    exact fun h => h12 h.symm
  · intro c c1 c2 mode
    constructor
    · cases mode <;>
        simp [LLIntCallee.setReplacement, LLIntCallee.replacement,
          PerMode.get, PerMode.set]
    · intro h12
      cases mode <;>
        simp [LLIntCallee.setReplacement, LLIntCallee.replacement,
          PerMode.get, PerMode.set] <;>
        exact fun h => h12 h.symm

/-- Witness for C2 (amended) at a concrete input: after publishing 1 then
2, the interpreter callee's slot holds 2 and not 1. -/
theorem setReplacement_last_publish_wins_witness :
    ((sampleLLIntCallee.setReplacement 1 MemoryMode.Signaling).setReplacement 2
        MemoryMode.Signaling).replacement MemoryMode.Signaling = some 2 ∧
    ((sampleLLIntCallee.setReplacement 1 MemoryMode.Signaling).setReplacement 2
        MemoryMode.Signaling).replacement MemoryMode.Signaling ≠ some 1 :=
  ⟨(setReplacement_last_publish_wins.2 sampleLLIntCallee 1 2
      MemoryMode.Signaling).1,
   (setReplacement_last_publish_wins.2 sampleLLIntCallee 1 2
      MemoryMode.Signaling).2 (by decide)⟩

end WasmModel

namespace WasmModel

/-- C3: `linkExceptionHandlers` is precondition-checked and correct:
mismatched-length inputs take the fatal contract-violation path
(`RELEASE_ASSERT`, modelled as `none`); with matched lengths `n` the
resulting table has exactly `n` records and the `i`-th record's range and
tag filter come from the `i`-th unlinked descriptor while its landing pad
equals the `i`-th resolved location. -/
theorem linkExceptionHandlers_checked_correct :
    (∀ (us : List UnlinkedHandlerInfo) (ls : List Nat),
      us.length ≠ ls.length → linkExceptionHandlers us ls = none) ∧
    (∀ (us : List UnlinkedHandlerInfo) (ls : List Nat),
      us.length = ls.length →
      ∃ table : List HandlerInfo,
        linkExceptionHandlers us ls = some table ∧
        table.length = us.length ∧
        ∀ (i : Nat) (u : UnlinkedHandlerInfo) (l : Nat),
          us[i]? = some u → ls[i]? = some l →
          table[i]? = some
            { rangeStart := u.rangeStart, rangeEnd := u.rangeEnd,
              landingPad := l, tagFilter := u.tagFilter }) := by
  constructor
  · intro us ls h
    simp [linkExceptionHandlers, h]
  · intro us ls h
    refine ⟨List.zipWith linkHandler us ls, ?_, ?_, ?_⟩
    · simp [linkExceptionHandlers, h]
    · rw [List.length_zipWith, h, Nat.min_self]
    · intro i u l hu hl
      rw [List.getElem?_zipWith, hu, hl]
      rfl

/-- Witness for C3 at concrete inputs: a one-descriptor table with a
missing location hits the assertion; with a matching location the linked
table pairs the descriptor with it. -/
theorem linkExceptionHandlers_checked_correct_witness :
    linkExceptionHandlers
      [{ rangeStart := 0, rangeEnd := 4, tagFilter := none }] [] = none ∧
    linkExceptionHandlers
      [{ rangeStart := 0, rangeEnd := 4, tagFilter := none }] [9] =
      some [{ rangeStart := 0, rangeEnd := 4, landingPad := 9,
              tagFilter := none }] :=
  ⟨linkExceptionHandlers_checked_correct.1
      [{ rangeStart := 0, rangeEnd := 4, tagFilter := none }] [] (by decide),
   by decide⟩

/-- C5: for every constructed callee over a well-formed Entrypoint and
Range descriptor, `codeRange()` is a non-empty half-open range and
`entrypoint()` lies within it; likewise for an interpreter-tier callee
with well-formed attribution data. -/
theorem codeRange_nonempty_entrypoint_within :
    (∀ (e : Entrypoint), e.wellFormed →
      (JITCallee.range e).1 < (JITCallee.range e).2 ∧
      (JITCallee.range e).1 ≤ JITCallee.entrypointAddress e ∧
      JITCallee.entrypointAddress e < (JITCallee.range e).2) ∧
    (∀ (c : LLIntCallee), c.attributionWellFormed →
      (c.range).1 < (c.range).2 ∧
      ∀ e ∈ c.entrypointSlot, (c.range).1 ≤ e ∧ e < (c.range).2) := by
  constructor
  · intro e he
    exact ⟨lt_of_le_of_lt he.1 he.2, he.1, he.2⟩
  · intro c hc
    exact ⟨hc.1, hc.2⟩

/-- Witness for C5 at a concrete input: the sample descriptor's
entrypoint lies inside its non-empty code range. -/
theorem codeRange_nonempty_entrypoint_within_witness :
    (JITCallee.range sampleEntrypoint).1 < (JITCallee.range sampleEntrypoint).2 ∧
    (JITCallee.range sampleEntrypoint).1 ≤
      JITCallee.entrypointAddress sampleEntrypoint ∧
    JITCallee.entrypointAddress sampleEntrypoint <
      (JITCallee.range sampleEntrypoint).2 :=
  codeRange_nonempty_entrypoint_within.1 sampleEntrypoint (by decide)

end WasmModel

namespace WasmModel

theorem HandlerInfo.handlerMatches_true_iff (h : HandlerInfo) (addr : Nat)
    (tag : Option Nat) :
    h.handlerMatches addr tag = true ↔
      (h.rangeStart ≤ addr ∧ addr < h.rangeEnd ∧
        (h.tagFilter = none ∨ h.tagFilter = tag)) := by
  simp [HandlerInfo.handlerMatches, and_assoc]

theorem foldl_handlerScanStep_no_match (address : Nat) (tag : Option Nat) :
    ∀ (l : List HandlerInfo) (best : Option HandlerInfo),
    (∀ h ∈ l, h.handlerMatches address tag = false) →
    l.foldl (handlerScanStep address tag) best = best
  | [], _, _ => rfl
  | h :: t, best, hall => by
      have hh : h.handlerMatches address tag = false := hall h (by simp)
      have hstep : handlerScanStep address tag best h = best := by
        simp [handlerScanStep, hh]
      rw [List.foldl_cons, hstep]
      exact foldl_handlerScanStep_no_match address tag t best
        (fun x hx => hall x (by simp [hx]))

/-- C4: exception-handler lookup is innermost-first with a defined
no-match result: for a table holding a handler whose range is strictly
nested inside another's (both applicable to the thrown tag), a lookup at
an address in the inner range returns the inner handler in either table
order, a lookup at an address in the outer range only returns the outer
handler, and a lookup where no record matches returns `none` (propagation,
not an error). -/
theorem handlerForRange_innermost_first :
    (∀ (h1 h2 : HandlerInfo) (address : Nat) (thrownTag : Option Nat)
        (l : List HandlerInfo),
      (l = [h1, h2] ∨ l = [h2, h1]) →
      h2.rangeStart ≤ h1.rangeStart → h1.rangeEnd ≤ h2.rangeEnd →
      h1.rangeWidth < h2.rangeWidth →
      (h1.tagFilter = none ∨ h1.tagFilter = thrownTag) →
      (h2.tagFilter = none ∨ h2.tagFilter = thrownTag) →
      ((h1.rangeStart ≤ address → address < h1.rangeEnd →
        handlerForRange l address thrownTag = some h1) ∧
       (h2.rangeStart ≤ address → address < h2.rangeEnd →
        ¬(h1.rangeStart ≤ address ∧ address < h1.rangeEnd) →
        handlerForRange l address thrownTag = some h2))) ∧
    (∀ (l : List HandlerInfo) (address : Nat) (thrownTag : Option Nat),
      (∀ h ∈ l, h.handlerMatches address thrownTag = false) →
      handlerForRange l address thrownTag = none) := by
  constructor
  · intro h1 h2 address thrownTag l hl hss hee hw htag1 htag2
    constructor
    · intro hs1 he1
      have m1 : h1.handlerMatches address thrownTag = true := by
        rw [HandlerInfo.handlerMatches_true_iff]
        exact ⟨hs1, he1, htag1⟩
      have m2 : h2.handlerMatches address thrownTag = true := by
        rw [HandlerInfo.handlerMatches_true_iff]
        exact ⟨le_trans hss hs1, lt_of_lt_of_le he1 hee, htag2⟩
      have hw2 : ¬ h2.rangeWidth < h1.rangeWidth := Nat.lt_asymm hw
      rcases hl with rfl | rfl
      · simp [handlerForRange, handlerScanStep, m1, m2, hw2]
      · simp [handlerForRange, handlerScanStep, m1, m2, hw]
    · intro hs2 he2 hn1
      have m1 : h1.handlerMatches address thrownTag = false := by
        rw [← Bool.not_eq_true, HandlerInfo.handlerMatches_true_iff]
        intro hc
        exact hn1 ⟨hc.1, hc.2.1⟩
      have m2 : h2.handlerMatches address thrownTag = true := by
        rw [HandlerInfo.handlerMatches_true_iff]
        exact ⟨hs2, he2, htag2⟩
      rcases hl with rfl | rfl
      · simp [handlerForRange, handlerScanStep, m1, m2]
      · simp [handlerForRange, handlerScanStep, m1, m2]
  · intro l address thrownTag hall
    exact foldl_handlerScanStep_no_match address thrownTag l none hall

/-- Witness for C4 at the spec's own scenario: ranges `[0x10,0x20)` with
tag filter `Err` and `[0x12,0x18)` catch-all, queried at `0x15` with
thrown tag `Err`, return the innermost (catch-all) handler. -/
theorem handlerForRange_innermost_first_witness :
    handlerForRange
      [{ rangeStart := 16, rangeEnd := 32, landingPad := 101,
         tagFilter := some 1 },
       { rangeStart := 18, rangeEnd := 24, landingPad := 102,
         tagFilter := none }]
      21 (some 1) =
      some { rangeStart := 18, rangeEnd := 24, landingPad := 102,
             tagFilter := none } :=
  ((handlerForRange_innermost_first.1
      { rangeStart := 18, rangeEnd := 24, landingPad := 102, tagFilter := none }
      { rangeStart := 16, rangeEnd := 32, landingPad := 101, tagFilter := some 1 }
      21 (some 1) _ (Or.inr rfl) (by decide) (by decide) (by decide)
      (Or.inl rfl) (Or.inr rfl)).1) (by decide) (by decide)

end WasmModel

namespace WasmModel

theorem constructorLoop_oom (wasmToJS : Nat → Except BindingFailure ExitStub)
    (count : Nat) :
    ∀ (n k : Nat) (stubs : List (Option ExitStub)) (calls : List Nat) (i : Nat),
    i - k = n → k ≤ i → i < count →
    (∀ j, k ≤ j → j < i → ∃ s, wasmToJS j = Except.ok s) →
    wasmToJS i = Except.error BindingFailure.OutOfMemory →
    stubs.length = count →
    ((constructorLoop wasmToJS count k stubs calls).errorMessage =
        some "Out of executable memory" ∧
     (constructorLoop wasmToJS count k stubs calls).bindingCalls =
        calls ++ List.range' k (i + 1 - k) ∧
     (constructorLoop wasmToJS count k stubs calls).wasmToJSExitStubs.length =
        count ∧
     (∀ j, i ≤ j →
        (constructorLoop wasmToJS count k stubs calls).wasmToJSExitStubs[j]? =
          stubs[j]?) ∧
     (∀ j s, k ≤ j → j < i → wasmToJS j = Except.ok s →
        (constructorLoop wasmToJS count k stubs calls).wasmToJSExitStubs[j]? =
          some (some s)) ∧
     (∀ j, j < k →
        (constructorLoop wasmToJS count k stubs calls).wasmToJSExitStubs[j]? =
          stubs[j]?)) := by
  intro n
  induction n with
  | zero =>
      intro k stubs calls i hn hki hic hok herr hlen
      have hik : k = i := Nat.le_antisymm hki (by omega)
      subst hik
      rw [constructorLoop, dif_pos hic, herr]
      refine ⟨rfl, ?_, hlen, fun j _ => rfl, fun j s hj1 hj2 _ => ?_, fun j _ => rfl⟩
      · have h1 : k + 1 - k = 1 := by omega
        simp [h1, List.range'_one]
      · omega
  | succ n ih =>
      intro k stubs calls i hn hki hic hok herr hlen
      have hkc : k < count := by omega
      have hklt : k < i := by omega
      obtain ⟨s, hs⟩ := hok k le_rfl hklt
      rw [constructorLoop, dif_pos hkc, hs]
      have hlen' : (stubs.set k (some s)).length = count := by
        simp [hlen]
      obtain ⟨e1, e2, e3, e4, e5, e6⟩ :=
        ih (k + 1) (stubs.set k (some s)) (calls ++ [k]) i (by omega) (by omega)
          hic (fun j hj1 hj2 => hok j (by omega) hj2) herr hlen'
      refine ⟨e1, ?_, e3, ?_, ?_, ?_⟩
      · rw [e2, List.append_assoc]
        have hsplit : i + 1 - k = (i + 1 - (k + 1)) + 1 := by omega
        rw [hsplit, List.range'_succ]
        rfl
      · intro j hj
        rw [e4 j hj, List.getElem?_set_ne (by omega)]
      · intro j s' hj1 hj2 hsj
        rcases Nat.eq_or_lt_of_le hj1 with heq | hjk
        · subst heq
          rw [hs] at hsj
          injection hsj with hss
          subst hss
          rw [e6 k (by omega), List.getElem?_set_self (by omega)]
        · exact e5 j s' (by omega) hj2 hsj
      · intro j hj
        rw [e6 j (by omega), List.getElem?_set_ne (by omega)]

end WasmModel

namespace WasmModel

/-- C7: import-binding resource exhaustion is reported, not recovered: if
`Wasm::wasmToJS` fails with `OutOfMemory` at import index `i` during
`JSWebAssemblyCalleeGroup` construction, the group records the error
message "Out of executable memory", exit-stub creation stops at index `i`
(slots at index `i` and beyond stay unpopulated, earlier slots hold their
bindings), and the binding generator is consulted exactly once per index
`0..i` with no retry. -/
theorem calleeGroup_oom_reported
    (wasmToJS : Nat → Except BindingFailure ExitStub)
    (functionImportCount i : Nat)
    (hic : i < functionImportCount)
    (hok : ∀ j, j < i → ∃ s, wasmToJS j = Except.ok s)
    (herr : wasmToJS i = Except.error BindingFailure.OutOfMemory) :
    (constructJSWebAssemblyCalleeGroup wasmToJS functionImportCount).errorMessage =
      some "Out of executable memory" ∧
    (constructJSWebAssemblyCalleeGroup wasmToJS
        functionImportCount).wasmToJSExitStubs.length = functionImportCount ∧
    (∀ j, i ≤ j → j < functionImportCount →
      (constructJSWebAssemblyCalleeGroup wasmToJS
          functionImportCount).wasmToJSExitStubs[j]? = some none) ∧
    (∀ j s, j < i → wasmToJS j = Except.ok s →
      (constructJSWebAssemblyCalleeGroup wasmToJS
          functionImportCount).wasmToJSExitStubs[j]? = some (some s)) ∧
    (constructJSWebAssemblyCalleeGroup wasmToJS functionImportCount).bindingCalls =
      List.range (i + 1) := by
  obtain ⟨e1, e2, e3, e4, e5, e6⟩ :=
    constructorLoop_oom wasmToJS functionImportCount i 0
      (List.replicate functionImportCount none) [] i rfl (Nat.zero_le i) hic
      (fun j _ hj => hok j hj) herr (by simp)
  refine ⟨e1, e3, ?_, ?_, ?_⟩
  · intro j hj1 hj2
    show (constructorLoop wasmToJS functionImportCount 0
        (List.replicate functionImportCount none) []).wasmToJSExitStubs[j]? =
      some none
    rw [e4 j hj1, List.getElem?_replicate, if_pos hj2]
  · intro j s hj hsj
    exact e5 j s (Nat.zero_le j) hj hsj
  · show (constructorLoop wasmToJS functionImportCount 0
        (List.replicate functionImportCount none) []).bindingCalls =
      List.range (i + 1)
    rw [e2, List.range_eq_range']
    rfl

/-- Witness for C7 at a concrete input: with two imports where index 0
binds and index 1 runs out of executable memory, construction records the
error, leaves slot 1 unpopulated, keeps slot 0's binding, and consults
the binding generator once for each of indices 0 and 1. -/
theorem calleeGroup_oom_reported_witness :
    (constructJSWebAssemblyCalleeGroup sampleWasmToJS 2).errorMessage =
      some "Out of executable memory" ∧
    (constructJSWebAssemblyCalleeGroup sampleWasmToJS 2).wasmToJSExitStubs[1]? =
      some none ∧
    (constructJSWebAssemblyCalleeGroup sampleWasmToJS 2).wasmToJSExitStubs[0]? =
      some (some 42) ∧
    (constructJSWebAssemblyCalleeGroup sampleWasmToJS 2).bindingCalls = [0, 1] := by
  obtain ⟨e1, _, e3, e4, e5⟩ :=
    calleeGroup_oom_reported sampleWasmToJS 2 1 (by decide)
      (fun j hj => ⟨42, by
        have hj0 : j = 0 := by omega
        subst hj0
        rfl⟩)
      rfl
  exact ⟨e1, e3 1 le_rfl (by decide), e4 0 42 (by decide) rfl,
    by rw [e5]; rfl⟩

end WasmModel
